import Mathlib

/-!
Shallow embedding of the Ice-RAG chat backend (src/index.js and the unnamed
variant src/unnamed/part_000, both `server.js`).  The two files implement the
same Express service: a `POST /api/chat` handler that lazily builds an
in-memory vector store from a PDF, retrieves the top-2 chunks for the incoming
message, asks a completion model whether those chunks are relevant, and
answers either from the PDF context (`source: 'PDF Knowledge Base'`) or from a
persona prompt (`source: 'OpenAI General Response'`).  External services
(PDF ingestion, similarity search, the three completion calls) are modelled by
an oracle environment `Env` giving each call site's outcome; the handler is a
pure function of the environment, the shared `vectorStore` state and the
request body, returning the HTTP response, the new state and the trace of
external calls it made.
-/

set_option linter.unusedVariables false

namespace IceRag

/-! Characters and JS string primitives. -/

/-- JavaScript regex `\s` (whitespace class), restricted to the code points it
names: space, tab, line feed, vertical tab, form feed, carriage return,
no-break space, BOM, and the Unicode space separators. -/
def isWs (c : Char) : Bool :=
  c = ' ' || c = '\t' || c = '\n' || c.toNat = 0x0b || c.toNat = 0x0c || c = '\r' ||
  c.toNat = 0xa0 || c.toNat = 0x1680 ||
  (0x2000 ≤ c.toNat && c.toNat ≤ 0x200a) ||
  c.toNat = 0x2028 || c.toNat = 0x2029 || c.toNat = 0x202f || c.toNat = 0x205f ||
  c.toNat = 0x3000 || c.toNat = 0xfeff

/-- Prefix test `hasPfx p l` : the character list `p` starts the list `l`
(the anchored part of a regex-match attempt at one position). -/
def hasPfx : List Char → List Char → Bool
  | [], _ => true
  | _ :: _, [] => false
  | p :: ps, c :: cs => p = c && hasPfx ps cs

/-- Substring test `occursIn p l` : `p` occurs contiguously somewhere in `l`
(JS `String.prototype.includes`). -/
def occursIn (p : List Char) : List Char → Bool
  | [] => hasPfx p []
  | c :: cs => hasPfx p (c :: cs) || occursIn p cs

theorem hasPfx_iff_append (p l : List Char) :
    hasPfx p l = true ↔ ∃ t, l = p ++ t := by
  induction p generalizing l with
  | nil => simp [hasPfx]
  | cons x xs ih =>
    cases l with
    | nil => simp [hasPfx]
    | cons c cs =>
      simp only [hasPfx, Bool.and_eq_true, decide_eq_true_eq, ih, List.cons_append,
        List.cons.injEq]
      constructor
      · rintro ⟨rfl, t, rfl⟩; exact ⟨t, rfl, rfl⟩
      · rintro ⟨t, rfl, rfl⟩; exact ⟨rfl, t, rfl⟩

theorem occursIn_iff_append (p l : List Char) :
    occursIn p l = true ↔ ∃ a b, l = a ++ p ++ b := by
  induction l with
  | nil =>
    simp [occursIn, hasPfx_iff_append]
  | cons c cs ih =>
    simp only [occursIn, Bool.or_eq_true, hasPfx_iff_append, ih]
    constructor
    · rintro (⟨t, ht⟩ | ⟨a, b, rfl⟩)
      · exact ⟨[], t, by simpa using ht⟩
      · exact ⟨c :: a, b, by simp⟩
    · rintro ⟨a, b, h⟩
      cases a with
      | nil => exact Or.inl ⟨b, by simpa using h⟩
      | cons a0 as =>
        simp only [List.cons_append, List.cons.injEq] at h
        exact Or.inr ⟨as, b, by simp [h.1, h.2]⟩

/-- JS `String.prototype.toLowerCase`, on the ASCII range the sources use. -/
def jsToLower (s : String) : String :=
  String.mk (s.data.map Char.toLower)

/-! Function `formatLinksAsHTML` (src/unnamed/part_000, lines 70–73):

```js
const formatLinksAsHTML = (text) => {
    const urlRegex = /(https?:\/\/[^\s]+)/g; // Regex to detect URLs
    return text.replace(urlRegex, (url) => `<a href="${url}" target="_blank">${url}</a>`);
};
```

`text.replace(/g-regex/)` scans left to right; at each index it tries the
anchored pattern `https?:\/\/[^\s]+` (literal scheme, then at least one
non-whitespace character, matched greedily), replaces a match by the anchor
markup, and resumes scanning right after the matched characters.
-/

def httpPfx : List Char := ['h', 't', 't', 'p', ':', '/', '/']

def httpsPfx : List Char := ['h', 't', 't', 'p', 's', ':', '/', '/']

/-- The character `n` positions in exists and is non-whitespace:
`[^\s]+` needs at least one character after the scheme. -/
def nonWsAt (n : Nat) (cs : List Char) : Bool :=
  match cs.drop n with
  | [] => false
  | c :: _ => !isWs c

/-- The anchored pattern `https?:\/\/[^\s]+` matches at the head of `cs`. -/
def urlMatchAt (cs : List Char) : Bool :=
  (hasPfx httpPfx cs && nonWsAt 7 cs) || (hasPfx httpsPfx cs && nonWsAt 8 cs)

/-- Split off the maximal non-whitespace run (`[^\s]+` greedy). -/
def splitNonWs : List Char → List Char × List Char
  | [] => ([], [])
  | c :: cs =>
    if isWs c then ([], c :: cs)
    else
      let p := splitNonWs cs
      (c :: p.1, p.2)

theorem splitNonWs_snd_length (cs : List Char) :
    (splitNonWs cs).2.length ≤ cs.length := by
  induction cs with
  | nil => simp [splitNonWs]
  | cons c cs ih =>
    by_cases h : isWs c = true
    · simp [splitNonWs, h]
    · simp only [splitNonWs, h, Bool.false_eq_true, if_false, List.length_cons]
      omega

theorem splitNonWs_snd_lt (c : Char) (cs : List Char) (h : isWs c = false) :
    (splitNonWs (c :: cs)).2.length < (c :: cs).length := by
  simp only [splitNonWs, h, Bool.false_eq_true, if_false, List.length_cons]
  exact Nat.lt_succ_of_le (splitNonWs_snd_length cs)

theorem urlMatchAt_head_not_ws (c : Char) (cs : List Char)
    (h : urlMatchAt (c :: cs) = true) : isWs c = false := by
  simp only [urlMatchAt, Bool.or_eq_true, Bool.and_eq_true] at h
  rcases h with ⟨h1, _⟩ | ⟨h1, _⟩ <;>
  · simp only [httpPfx, httpsPfx, hasPfx, Bool.and_eq_true, decide_eq_true_eq] at h1
    rw [← h1.1]
    decide

/-- The replacement text `<a href="${url}" target="_blank">${url}</a>`. -/
def wrapAnchor (url : List Char) : List Char :=
  "<a href=\"".data ++ url ++ "\" target=\"_blank\">".data ++ url ++ "</a>".data

/-- One left-to-right `replace` pass of the global regex over the characters.
Structural recursion on a fuel bound (every scanning step consumes at least
one character, so any `fuel ≥ cs.length` computes the full pass —
`formatLinksFuel_irrel` below). -/
def formatLinksFuel : Nat → List Char → List Char
  | _, [] => []
  | 0, c :: rest => c :: rest
  | fuel + 1, c :: rest =>
    if urlMatchAt (c :: rest) then
      wrapAnchor (splitNonWs (c :: rest)).1 ++ formatLinksFuel fuel (splitNonWs (c :: rest)).2
    else
      c :: formatLinksFuel fuel rest

def formatLinksCore (cs : List Char) : List Char :=
  formatLinksFuel cs.length cs

/-- The fuel bound is irrelevant as long as it covers the input's length, so
`formatLinksCore` is the fuel-free scan of the whole input. -/
theorem formatLinksFuel_irrel (f : Nat) :
    ∀ (g : Nat) (cs : List Char), cs.length ≤ f → cs.length ≤ g →
      formatLinksFuel f cs = formatLinksFuel g cs := by
  induction f with
  | zero =>
    intro g cs hf hg
    cases cs with
    | nil => cases g <;> rfl
    | cons c rest => simp at hf
  | succ f' ih =>
    intro g cs hf hg
    cases cs with
    | nil => cases g <;> rfl
    | cons c rest =>
      cases g with
      | zero => simp at hg
      | succ g' =>
        simp only [formatLinksFuel]
        by_cases hm : urlMatchAt (c :: rest) = true
        · have hlt := splitNonWs_snd_lt c rest (urlMatchAt_head_not_ws c rest hm)
          rw [if_pos hm, if_pos hm]
          have hrec := ih g' (splitNonWs (c :: rest)).2
            (by simp only [List.length_cons] at hlt hf ⊢; omega)
            (by simp only [List.length_cons] at hlt hg ⊢; omega)
          rw [hrec]
        · rw [if_neg hm, if_neg hm]
          have hrec := ih g' rest
            (by simp only [List.length_cons] at hf; omega)
            (by simp only [List.length_cons] at hg; omega)
          rw [hrec]

/-- Function `formatLinksAsHTML` from src/unnamed/part_000. -/
def formatLinksAsHTML (text : String) : String :=
  String.mk (formatLinksCore text.data)

/-- Scanning text in which neither URL scheme occurs changes nothing. -/
theorem formatLinksFuel_id_of_no_scheme (fuel : Nat) :
    ∀ cs : List Char, occursIn httpPfx cs = false → occursIn httpsPfx cs = false →
      formatLinksFuel fuel cs = cs := by
  induction fuel with
  | zero => intro cs _ _; cases cs <;> rfl
  | succ f ih =>
    intro cs h1 h2
    cases cs with
    | nil => rfl
    | cons c rest =>
      simp only [occursIn, Bool.or_eq_false_iff] at h1 h2
      have hm : ¬ urlMatchAt (c :: rest) = true := by
        simp [urlMatchAt, h1.1, h2.1]
      simp only [formatLinksFuel]
      rw [if_neg hm, ih rest h1.2 h2.2]

/-! Data model and the external-service oracle. -/

/-- A retrieved document chunk (LangChain document: only `pageContent` is read
by the sources, via `r.pageContent`). -/
structure Doc where
  pageContent : String
deriving DecidableEq, Repr

/-- The in-memory vector store built by `initializePDF`: a collection of
chunks (their embeddings live behind the external similarity search, which the
oracle below answers). -/
structure VectorStore where
  docs : List Doc
deriving DecidableEq, Repr

/-- The external calls a request can make, in order of appearance. -/
inductive ExtCall where
  | ingestion
  | similaritySearch
  | relevanceCheck
  | groundedCompletion
  | generalCompletion
deriving DecidableEq, Repr

/-- Oracle for the behaviour of the external services during one request:
the outcome of each call site.  `ingestResult = none` models `initializePDF`
catching its own error and leaving `vectorStore` null; an `Except.error` in
the other fields models the corresponding awaited promise rejecting. -/
structure Env where
  ingestResult : Option VectorStore
  searchResult : Except Unit (List Doc)
  relevanceResult : Except Unit String
  groundedResult : Except Unit String
  generalResult : Except Unit String

/-- The JSON bodies the handler can send, tagged by status code. -/
inductive HttpResponse where
  | ok (message : String) (source : String)
  | badRequest (error : String)
  | serverError (error : String)
deriving DecidableEq, Repr

/-- JS truthiness of `message` in `if (!message)`: absent or the empty
string. -/
def jsFalsy : Option String → Bool
  | none => true
  | some s => s = ""

/-- The characters of the token `"true"` searched for in the classifier's
`includes('true')`. -/
def trueTok : List Char := ['t', 'r', 'u', 'e']

/-! Function `isRelevantPDFContent` (src/index.js lines 89–113):

```js
const isRelevantPDFContent = async (results, question) => {
    if (!results || results.length === 0) return false;
    try {
        const response = await openai.chat.completions.create({ ... });
        return response.choices[0].message.content.toLowerCase().includes('true');
    } catch (error) {
        console.error('Error checking relevance:', error);
        return false;
    }
};
```

The function's result is a `Bool` together with the external calls it made;
the `catch` means it never propagates a completion failure.  (The prompt text
built from `question` and the chunk texts is consumed only by the external
model, whose answer the oracle supplies, so it does not appear here.) -/

def isRelevantPDFContent (env : Env) (results : List Doc) (question : String) :
    Bool × List ExtCall :=
  if results.length = 0 then (false, [])
  else
    match env.relevanceResult with
    | .ok content => (occursIn trueTok (jsToLower content).data, [ExtCall.relevanceCheck])
    | .error _ => (false, [ExtCall.relevanceCheck])

/-! Function `getOpenAIResponse` (both variants, persona fallback):

In src/index.js it returns `{ content, source: 'OpenAI General Response' }`
and rethrows completion failures; in src/unnamed/part_000 it additionally
passes the content through `formatLinksAsHTML`. -/

def getOpenAIResponse (env : Env) (question : String) : Except Unit (String × String) :=
  match env.generalResult with
  | .ok content => .ok (content, "OpenAI General Response")
  | .error e => .error e

def getOpenAIResponseFmt (env : Env) (question : String) : Except Unit (String × String) :=
  match env.generalResult with
  | .ok content => .ok (formatLinksAsHTML content, "OpenAI General Response")
  | .error e => .error e

/-! The `POST /api/chat` handlers:

src/index.js lines 116–168 and src/unnamed/part_000 lines 134–187.  Each
returns the HTTP response, the `vectorStore` reference after the request
(the lazy-initialization write), and the trace of external calls made.  The
outer `try`/`catch` turns any rejected await inside it into
`500 { error: 'Internal server error' }`. -/

def chatHandler_index (env : Env) (store : Option VectorStore) (message : Option String) :
    HttpResponse × Option VectorStore × List ExtCall :=
  if jsFalsy message then
    (.badRequest "Message is required", store, [])
  else
    -- if (!vectorStore) { await initializePDF(); }   (catches its own errors)
    let ini : Option VectorStore × List ExtCall :=
      match store with
      | none => (env.ingestResult, [ExtCall.ingestion])
      | some vs => (some vs, [])
    match ini.1 with
    | some _ =>
      match env.searchResult with
      | .error _ =>
          (.serverError "Internal server error", ini.1, ini.2 ++ [ExtCall.similaritySearch])
      | .ok results =>
          let rel := isRelevantPDFContent env results (message.getD "")
          let calls := ini.2 ++ [ExtCall.similaritySearch] ++ rel.2
          if rel.1 then
            match env.groundedResult with
            | .ok content =>
                (.ok content "PDF Knowledge Base", ini.1,
                 calls ++ [ExtCall.groundedCompletion])
            | .error _ =>
                (.serverError "Internal server error", ini.1,
                 calls ++ [ExtCall.groundedCompletion])
          else
            match getOpenAIResponse env (message.getD "") with
            | .ok cs =>
                (.ok cs.1 cs.2, ini.1, calls ++ [ExtCall.generalCompletion])
            | .error _ =>
                (.serverError "Internal server error", ini.1,
                 calls ++ [ExtCall.generalCompletion])
    | none =>
      match getOpenAIResponse env (message.getD "") with
      | .ok cs => (.ok cs.1 cs.2, none, ini.2 ++ [ExtCall.generalCompletion])
      | .error _ =>
          (.serverError "Internal server error", none, ini.2 ++ [ExtCall.generalCompletion])

def chatHandler_part000 (env : Env) (store : Option VectorStore) (message : Option String) :
    HttpResponse × Option VectorStore × List ExtCall :=
  if jsFalsy message then
    (.badRequest "Message is required", store, [])
  else
    let ini : Option VectorStore × List ExtCall :=
      match store with
      | none => (env.ingestResult, [ExtCall.ingestion])
      | some vs => (some vs, [])
    match ini.1 with
    | some _ =>
      match env.searchResult with
      | .error _ =>
          (.serverError "Internal server error", ini.1, ini.2 ++ [ExtCall.similaritySearch])
      | .ok results =>
          let rel := isRelevantPDFContent env results (message.getD "")
          let calls := ini.2 ++ [ExtCall.similaritySearch] ++ rel.2
          if rel.1 then
            match env.groundedResult with
            | .ok content =>
                (.ok (formatLinksAsHTML content) "PDF Knowledge Base", ini.1,
                 calls ++ [ExtCall.groundedCompletion])
            | .error _ =>
                (.serverError "Internal server error", ini.1,
                 calls ++ [ExtCall.groundedCompletion])
          else
            match getOpenAIResponseFmt env (message.getD "") with
            | .ok cs =>
                (.ok cs.1 cs.2, ini.1, calls ++ [ExtCall.generalCompletion])
            | .error _ =>
                (.serverError "Internal server error", ini.1,
                 calls ++ [ExtCall.generalCompletion])
    | none =>
      match getOpenAIResponseFmt env (message.getD "") with
      | .ok cs => (.ok cs.1 cs.2, none, ini.2 ++ [ExtCall.generalCompletion])
      | .error _ =>
          (.serverError "Internal server error", none, ini.2 ++ [ExtCall.generalCompletion])

/-- Apply a presentation transform to the `message` field of a 200 body,
leaving error responses unchanged. -/
def mapOkMessage (f : String → String) : HttpResponse → HttpResponse
  | .ok m s => .ok (f m) s
  | r => r

/-! Response-shape predicates (the spec's testable properties). -/

/-- A 200 body's `source` is exactly one of the two advertised values. -/
def respSourceValid : HttpResponse → Prop
  | .ok _ src =>
      (src = "PDF Knowledge Base" ∨ src = "OpenAI General Response") ∧
      ¬(src = "PDF Knowledge Base" ∧ src = "OpenAI General Response")
  | _ => True

/-- If the response is a 200, its `source` is the general/fallback value. -/
def respSourceGeneral : HttpResponse → Prop
  | .ok _ src => src = "OpenAI General Response"
  | _ => True

/-- The response is a 200, or else exactly the generic 500 body — never a 400
and never an error body carrying failure details. -/
def respOkOrGeneric500 : HttpResponse → Prop
  | .ok _ _ => True
  | .badRequest _ => False
  | .serverError e => e = "Internal server error"

/-! Concrete oracle environments for witnesses. -/

def envAllOk : Env :=
  { ingestResult := some ⟨[⟨"chunk one"⟩]⟩
    searchResult := .ok [⟨"chunk one"⟩]
    relevanceResult := .ok "true"
    groundedResult := .ok "grounded answer"
    generalResult := .ok "general answer, see http://a.b" }

def envRelErr : Env :=
  { envAllOk with relevanceResult := .error () }

def envRelFalse : Env :=
  { envAllOk with relevanceResult := .ok "false" }

def envAllErr : Env :=
  { ingestResult := none
    searchResult := .error ()
    relevanceResult := .error ()
    groundedResult := .error ()
    generalResult := .error () }

/-! Claim theorems. -/

/-- Claim C3, counterexample: `formatLinksAsHTML` is not idempotent.  Applying it
twice to `"http://x"` differs from applying it once, and on the
already-wrapped text `<a href="http://x" target="_blank">http://x</a>` it is
not the identity: the URL occurrences inside the anchor markup are matched
and wrapped again. -/
theorem formatLinks_not_idempotent_counterexample :
    formatLinksAsHTML (formatLinksAsHTML "http://x") ≠ formatLinksAsHTML "http://x" ∧
    formatLinksAsHTML "<a href=\"http://x\" target=\"_blank\">http://x</a>" ≠
      "<a href=\"http://x\" target=\"_blank\">http://x</a>" := by
  exact ⟨by decide, by decide⟩

/-- Claim C3, amended: `formatLinksAsHTML` is the identity on any text containing
no occurrence of `http://` and no occurrence of `https://`.  (The idempotence
half of the claim fails, see the counterexample: anchor-wrapped URLs are
re-matched because `[^\s]+` also consumes `"`, `<` and `>`.) -/
theorem formatLinks_id_of_no_scheme (text : String)
    (h1 : occursIn httpPfx text.data = false)
    (h2 : occursIn httpsPfx text.data = false) :
    formatLinksAsHTML text = text := by
  have h := formatLinksFuel_id_of_no_scheme text.data.length text.data h1 h2
  unfold formatLinksAsHTML formatLinksCore
  rw [h]

theorem formatLinks_id_of_no_scheme_witness :
    occursIn httpPfx "plain text, no links.".data = false ∧
    occursIn httpsPfx "plain text, no links.".data = false ∧
    formatLinksAsHTML "plain text, no links." = "plain text, no links." :=
  ⟨by decide, by decide,
    formatLinks_id_of_no_scheme "plain text, no links." (by decide) (by decide)⟩

/-- Claim C4: with a non-empty chunk list and a successful completion call, the
relevance classifier answers `true` exactly when the completion's response
text, lowercased, contains the substring `"true"`. -/
theorem isRelevant_iff_contains_true (env : Env) (results : List Doc)
    (question content : String)
    (hne : results ≠ []) (hok : env.relevanceResult = .ok content) :
    ((isRelevantPDFContent env results question).1 = true ↔
      ∃ a b, (jsToLower content).data = a ++ trueTok ++ b) := by
  have hlen : ¬ results.length = 0 := by
    simpa [List.length_eq_zero] using hne
  simp only [isRelevantPDFContent, hlen, if_false, hok]
  exact occursIn_iff_append trueTok (jsToLower content).data

theorem isRelevant_iff_contains_true_witness :
    ([⟨"chunk one"⟩] : List Doc) ≠ [] ∧
    envAllOk.relevanceResult = .ok "true" ∧
    ((isRelevantPDFContent envAllOk [⟨"chunk one"⟩] "q").1 = true ↔
      ∃ a b, (jsToLower "true").data = a ++ trueTok ++ b) :=
  ⟨by decide, rfl,
    isRelevant_iff_contains_true envAllOk [⟨"chunk one"⟩] "q" "true" (by decide) rfl⟩

/-- Claim C5: called with an empty chunk list, the relevance classifier returns
`false` and makes no external call, whatever the environment and question. -/
theorem isRelevant_empty_no_call (env : Env) (question : String) :
    isRelevantPDFContent env [] question = (false, []) := by
  simp [isRelevantPDFContent]

/-- Claim C6: if the completion call inside the relevance classifier fails, the
classifier returns `false` (the `catch` swallows the error, so nothing
propagates), and the request's 200 response — for either variant — can only
carry the general/fallback `source`. -/
theorem isRelevant_failure_fails_open (env : Env) (results : List Doc)
    (question : String) (store : Option VectorStore) (m : String)
    (herr : env.relevanceResult = .error ()) (hm : m ≠ "") :
    (isRelevantPDFContent env results question).1 = false ∧
    respSourceGeneral (chatHandler_index env store (some m)).1 ∧
    respSourceGeneral (chatHandler_part000 env store (some m)).1 := by
  have hfst : ∀ (rs : List Doc) (q : String), (isRelevantPDFContent env rs q).1 = false := by
    intro rs q; cases rs <;> simp [isRelevantPDFContent, herr]
  refine ⟨hfst results question, ?_, ?_⟩ <;>
  · rcases env with ⟨ing, sr, rr, gr, genr⟩
    cases store <;> cases ing <;> cases sr <;> cases genr <;>
      simp [chatHandler_index, chatHandler_part000, jsFalsy, hm, getOpenAIResponse,
        getOpenAIResponseFmt, respSourceGeneral, hfst]

theorem isRelevant_failure_fails_open_witness :
    envRelErr.relevanceResult = .error () ∧ ("hello" : String) ≠ "" ∧
    ((isRelevantPDFContent envRelErr [⟨"chunk one"⟩] "q").1 = false ∧
     respSourceGeneral (chatHandler_index envRelErr none (some "hello")).1 ∧
     respSourceGeneral (chatHandler_part000 envRelErr none (some "hello")).1) :=
  ⟨rfl, by decide,
    isRelevant_failure_fails_open envRelErr [⟨"chunk one"⟩] "q" none "hello" rfl (by decide)⟩

/-- Claim C1: for every request with a non-empty `message`, a 200 response from
either variant's handler carries a `source` equal to exactly one of
`'PDF Knowledge Base'` and `'OpenAI General Response'` — never both, never
any other value. -/
theorem chat_source_exclusive (env : Env) (store : Option VectorStore) (m : String)
    (hm : m ≠ "") :
    respSourceValid (chatHandler_index env store (some m)).1 ∧
    respSourceValid (chatHandler_part000 env store (some m)).1 := by
  constructor <;>
  · rcases env with ⟨ing, sr, rr, gr, genr⟩
    cases store <;> cases ing <;> cases sr <;> cases rr <;> cases gr <;> cases genr <;>
      simp [chatHandler_index, chatHandler_part000, jsFalsy, hm, getOpenAIResponse,
        getOpenAIResponseFmt, isRelevantPDFContent, respSourceValid] <;>
      split_ifs <;> simp [respSourceValid]

theorem chat_source_exclusive_witness :
    ("hello" : String) ≠ "" ∧
    (respSourceValid (chatHandler_index envAllOk none (some "hello")).1 ∧
     respSourceValid (chatHandler_part000 envAllOk none (some "hello")).1) :=
  ⟨by decide, chat_source_exclusive envAllOk none "hello" (by decide)⟩

/-- Claim C2: a missing or empty `message` makes both variants' handlers answer
`400 { error: 'Message is required' }` immediately, leaving the shared store
untouched and making no external call at all. -/
theorem chat_missing_message_400 (env : Env) (store : Option VectorStore)
    (msg : Option String) (hfalsy : jsFalsy msg = true) :
    chatHandler_index env store msg = (.badRequest "Message is required", store, []) ∧
    chatHandler_part000 env store msg = (.badRequest "Message is required", store, []) := by
  constructor <;> simp [chatHandler_index, chatHandler_part000, hfalsy]

theorem chat_missing_message_400_witness :
    jsFalsy none = true ∧
    (chatHandler_index envAllOk none none = (.badRequest "Message is required", none, []) ∧
     chatHandler_part000 envAllOk none none = (.badRequest "Message is required", none, [])) :=
  ⟨rfl, chat_missing_message_400 envAllOk none none rfl⟩

/-- Claim C7: whenever the relevance classifier answers `false` for whatever the
similarity search would return — which includes the forced-`false` cases of an
empty retrieval result and of an unavailable index — a 200 response can only
carry the general/fallback `source`, never `'PDF Knowledge Base'`. -/
theorem classifier_false_source_general (env : Env) (store : Option VectorStore)
    (m : String) (hm : m ≠ "")
    (hrel : ∀ results, env.searchResult = .ok results →
      (isRelevantPDFContent env results m).1 = false) :
    respSourceGeneral (chatHandler_index env store (some m)).1 ∧
    respSourceGeneral (chatHandler_part000 env store (some m)).1 := by
  constructor <;>
  · rcases henv : env with ⟨ing, sr, rr, gr, genr⟩
    cases store <;> cases ing <;> cases sr <;> cases genr <;>
      simp_all [chatHandler_index, chatHandler_part000, jsFalsy, hm, getOpenAIResponse,
        getOpenAIResponseFmt, respSourceGeneral]

theorem classifier_false_source_general_witness :
    respSourceGeneral (chatHandler_index envRelFalse none (some "hello")).1 ∧
    respSourceGeneral (chatHandler_part000 envRelFalse none (some "hello")).1 :=
  classifier_false_source_general envRelFalse none "hello" (by decide)
    (by intro results h
        simp only [envRelFalse, envAllOk] at h
        cases h
        decide)

/-- Claim C8: the shared index reference transitions `Uninitialized → IndexReady`
at most once.  Starting from an unset store, a request attempts ingestion and
ends with exactly the ingestion outcome (so a failed ingestion leaves the
state unset, and the next request — being in the same unset state — attempts
ingestion again); starting from a set store, the request keeps it unchanged
and never re-triggers ingestion. -/
theorem ingestion_state_transitions (env : Env) (vs : VectorStore) (m : String)
    (hm : m ≠ "") :
    (chatHandler_index env none (some m)).2.1 = env.ingestResult ∧
    ExtCall.ingestion ∈ (chatHandler_index env none (some m)).2.2 ∧
    (chatHandler_index env (some vs) (some m)).2.1 = some vs ∧
    ExtCall.ingestion ∉ (chatHandler_index env (some vs) (some m)).2.2 := by
  rcases env with ⟨ing, sr, rr, gr, genr⟩
  refine ⟨?_, ?_, ?_, ?_⟩ <;>
  · cases ing <;> cases sr <;> cases rr <;> cases gr <;> cases genr <;>
      simp [chatHandler_index, jsFalsy, hm, getOpenAIResponse, isRelevantPDFContent] <;>
      split_ifs <;> simp

theorem ingestion_state_transitions_witness :
    (chatHandler_index envAllOk none (some "hello")).2.1 = envAllOk.ingestResult ∧
    ExtCall.ingestion ∈ (chatHandler_index envAllOk none (some "hello")).2.2 ∧
    (chatHandler_index envAllOk (some ⟨[]⟩) (some "hello")).2.1 = some ⟨[]⟩ ∧
    ExtCall.ingestion ∉ (chatHandler_index envAllOk (some ⟨[]⟩) (some "hello")).2.2 :=
  ingestion_state_transitions envAllOk ⟨[]⟩ "hello" (by decide)

/-- Claim C9: for a non-empty message, each variant's handler answers either a 200
or exactly the generic `500 { error: 'Internal server error' }` — whatever
fails (ingestion, search, classification, generation), no failure detail ever
reaches the response body. -/
theorem unhandled_failure_generic_500 (env : Env) (store : Option VectorStore)
    (m : String) (hm : m ≠ "") :
    respOkOrGeneric500 (chatHandler_index env store (some m)).1 ∧
    respOkOrGeneric500 (chatHandler_part000 env store (some m)).1 := by
  constructor <;>
  · rcases env with ⟨ing, sr, rr, gr, genr⟩
    cases store <;> cases ing <;> cases sr <;> cases rr <;> cases gr <;> cases genr <;>
      simp [chatHandler_index, chatHandler_part000, jsFalsy, hm, getOpenAIResponse,
        getOpenAIResponseFmt, isRelevantPDFContent, respOkOrGeneric500] <;>
      split_ifs <;> simp [respOkOrGeneric500]

theorem unhandled_failure_generic_500_witness :
    ("hello" : String) ≠ "" ∧
    (respOkOrGeneric500 (chatHandler_index envAllErr none (some "hello")).1 ∧
     respOkOrGeneric500 (chatHandler_part000 envAllErr none (some "hello")).1) :=
  ⟨by decide, unhandled_failure_generic_500 envAllErr none "hello" (by decide)⟩

/-- Claim C10: for every request and identical external-service behaviour, the
part_000 handler is the index.js handler with `formatLinksAsHTML` applied to
the 200 body's `message` field: same status, same `source`, same resulting
store and same external-call trace. -/
theorem handlers_equivalent (env : Env) (store : Option VectorStore)
    (msg : Option String) :
    chatHandler_part000 env store msg =
      (mapOkMessage formatLinksAsHTML (chatHandler_index env store msg).1,
       (chatHandler_index env store msg).2.1,
       (chatHandler_index env store msg).2.2) := by
  rcases env with ⟨ing, sr, rr, gr, genr⟩
  by_cases hm : jsFalsy msg = true
  · simp [chatHandler_index, chatHandler_part000, hm, mapOkMessage]
  · cases store <;> cases ing <;> cases sr <;> cases rr <;> cases gr <;> cases genr <;>
      simp [chatHandler_index, chatHandler_part000, hm, mapOkMessage, getOpenAIResponse,
        getOpenAIResponseFmt, isRelevantPDFContent] <;>
      split_ifs <;> simp [mapOkMessage]

end IceRag
